import Mathlib

/-!
Verification of the HTTP Front Door component of `src/backend/app.py`.

The application registers two GET routes (`/` and `/health`) returning
fixed JSON payloads, and wires a cross-origin (CORS) policy filter with a
two-element origin allow-list, credentials allowed, and wildcard methods
and headers.  The handlers, the route table and the CORS configuration are
embedded directly from the source; the CORS middleware algorithm itself is
library code not present in this repository and is modelled from the spec.
-/

namespace Backend

/-- A JSON object with string-valued fields — the only JSON shape this
application ever produces. -/
structure JsonObj where
  fields : List (String × String)
  deriving DecidableEq, Repr

/-- HTTP methods. -/
inductive Method where
  | GET | HEAD | POST | PUT | DELETE | OPTIONS | PATCH | TRACE
  deriving DecidableEq, Repr

/-- An incoming HTTP request: method, path, the Origin header (if any),
the remaining headers, query string and body. -/
structure Request where
  method : Method
  path : String
  origin : Option String
  headers : List (String × String)
  query : String
  body : String
  deriving DecidableEq, Repr

/-- An outgoing HTTP response: status code, optional JSON body, headers. -/
structure Response where
  status : Nat
  body : Option JsonObj
  headers : List (String × String)
  deriving DecidableEq, Repr

/-- The `root` handler (src/backend/app.py, lines 22–25): it takes no
input and returns the fixed object with message
"AI Project Backend is running". -/
def root : JsonObj := ⟨[("message", "AI Project Backend is running")]⟩

/-- The `health` handler (src/backend/app.py, lines 28–31): it takes no
input and returns the fixed object with status "healthy". -/
def health : JsonObj := ⟨[("status", "healthy")]⟩

/-- The CORS configuration options recognized by the middleware. -/
structure CORSConfig where
  allow_origins : List String
  allow_credentials : Bool
  allow_methods : List String
  allow_headers : List String
  deriving DecidableEq, Repr

/-- The CORS configuration wired onto the app
(src/backend/app.py, lines 13–19). -/
def corsConfig : CORSConfig :=
  { allow_origins := ["http://localhost:3000", "http://localhost:5173"]
    allow_credentials := true
    allow_methods := ["*"]
    allow_headers := ["*"] }

/-- The (method, path) pairs registered on the app: the two `@app.get`
decorators at src/backend/app.py lines 22 and 28. -/
def registeredRoutes : List (Method × String) :=
  [(Method.GET, "/"), (Method.GET, "/health")]

/-- The routing table: maps a (method, path) pair to the registered
handler's payload, or none when no route matches. -/
def routeHandler (m : Method) (p : String) : Option JsonObj :=
  if m = Method.GET ∧ p = "/" then some root
  else if m = Method.GET ∧ p = "/health" then some health
  else none

/-- The inner application: dispatch a request to its route handler.  A
matched route returns status 200 with the handler's payload; an unmatched
request falls through to the hosting runtime's default not-found
behavior (no payload). -/
def dispatch (req : Request) : Response :=
  match routeHandler req.method req.path with
  | some payload => { status := 200, body := some payload, headers := [] }
  | none => { status := 404, body := none, headers := [] }

/-- Modelled from the spec: the cross-origin grant headers the
CORSMiddleware (library code, not in this repository) attaches for an
allowed origin — the allow-origin header echoing the specific requesting
origin, plus the permit-credentials header when `allow_credentials` is
set. -/
def corsGrantHeaders (cfg : CORSConfig) (o : String) : List (String × String) :=
  ("Access-Control-Allow-Origin", o) ::
    (if cfg.allow_credentials then [("Access-Control-Allow-Credentials", "true")] else [])

/-- Modelled from the spec: a cross-origin preflight is an OPTIONS request
bearing an Origin header and an Access-Control-Request-Method header. -/
def isPreflight (req : Request) : Bool :=
  req.method == Method.OPTIONS && req.origin.isSome &&
    req.headers.any (fun h => h.1 == "Access-Control-Request-Method")

/-- Modelled from the spec: the response the middleware gives to a
preflight from an allowed origin — it grants the origin access per the
configured policy, reflecting the wildcard methods and headers. -/
def preflightResponse (cfg : CORSConfig) (o : String) : Response :=
  { status := 200
    body := none
    headers := corsGrantHeaders cfg o ++
      [("Access-Control-Allow-Methods", String.intercalate ", " cfg.allow_methods),
       ("Access-Control-Allow-Headers", String.intercalate ", " cfg.allow_headers)] }

/-- Modelled from the spec: the CORSMiddleware wired at
src/backend/app.py lines 13–19 is library code not present in this
repository.  Per the spec (§4.1) it is a stateless per-request filter
applied to every request regardless of route: when the request Origin is
in `allow_origins` it answers preflights itself and otherwise injects the
grant headers onto the route's normal response; a request from any other
origin is not rejected — it is processed normally and merely not granted
the cross-origin headers. -/
def processRequest (cfg : CORSConfig) (req : Request) : Response :=
  match req.origin with
  | some o =>
    if o ∈ cfg.allow_origins then
      if isPreflight req then preflightResponse cfg o
      else
        let resp := dispatch req
        { resp with headers := resp.headers ++ corsGrantHeaders cfg o }
    else dispatch req
  | none => dispatch req

/-- The cross-origin grant portion of a response's headers: the
allow-origin and permit-credentials entries. -/
def corsGrant (resp : Response) : List (String × String) :=
  resp.headers.filter
    (fun h => h.1 == "Access-Control-Allow-Origin" || h.1 == "Access-Control-Allow-Credentials")

/-! Helper lemmas shared by the claim theorems. -/

/-- A GET request is never a preflight. -/
theorem isPreflight_of_get (req : Request) (hm : req.method = Method.GET) :
    isPreflight req = false := by
  simp [isPreflight, hm]

/-- The inner dispatcher attaches no headers of its own. -/
theorem dispatch_headers (req : Request) : (dispatch req).headers = [] := by
  unfold dispatch
  cases h : routeHandler req.method req.path <;> simp [h]

/-- For a non-preflight request the CORS filter changes neither the
status nor the body of the route's normal response. -/
theorem processRequest_preserves (cfg : CORSConfig) (req : Request)
    (h : isPreflight req = false) :
    (processRequest cfg req).status = (dispatch req).status ∧
    (processRequest cfg req).body = (dispatch req).body := by
  cases hor : req.origin with
  | none => simp [processRequest, hor]
  | some o =>
    by_cases hmem : o ∈ cfg.allow_origins
    · simp [processRequest, hor, hmem, h]
    · simp [processRequest, hor, hmem]

/-- The body of the full pipeline's response always agrees with the inner
dispatcher's body. -/
theorem processRequest_body (cfg : CORSConfig) (req : Request) :
    (processRequest cfg req).body = (dispatch req).body := by
  cases hor : req.origin with
  | none => simp [processRequest, hor]
  | some o =>
    by_cases hmem : o ∈ cfg.allow_origins
    · by_cases hpre : isPreflight req
      · have hm : req.method = Method.OPTIONS := by
          simp [isPreflight] at hpre
          exact hpre.1.1
        simp [processRequest, hor, hmem, hpre, preflightResponse, dispatch, routeHandler, hm]
      · simp [processRequest, hor, hmem, hpre]
    · simp [processRequest, hor, hmem]

/-- The inner dispatcher's body is a function of method and path alone. -/
theorem dispatch_body_congr (r1 r2 : Request)
    (hm : r1.method = r2.method) (hp : r1.path = r2.path) :
    (dispatch r1).body = (dispatch r2).body := by
  unfold dispatch
  rw [hm, hp]

/-- Evaluation of the cross-origin grant portion of the pipeline's
response: the echoed origin with the permit-credentials entry when the
origin is allowed, nothing otherwise. -/
theorem corsGrant_eval (req : Request) :
    corsGrant (processRequest corsConfig req) =
      match req.origin with
      | some o =>
        if o ∈ corsConfig.allow_origins then
          [("Access-Control-Allow-Origin", o), ("Access-Control-Allow-Credentials", "true")]
        else []
      | none => [] := by
  cases hor : req.origin with
  | none => simp [processRequest, hor, corsGrant, dispatch_headers]
  | some o =>
    by_cases hmem : o ∈ corsConfig.allow_origins
    · have hmem' : o = "http://localhost:3000" ∨ o = "http://localhost:5173" := by
        simpa [corsConfig] using hmem
      by_cases hpre : isPreflight req
      · simp [processRequest, hor, hmem, hpre, corsGrant, preflightResponse,
          corsGrantHeaders, corsConfig, hmem']
      · simp [processRequest, hor, hmem, hpre, corsGrant, dispatch_headers,
          corsGrantHeaders, corsConfig, hmem']
    · simp [processRequest, hor, hmem, corsGrant, dispatch_headers]

/-! The claim theorems. -/

/-- C1: For every valid GET request to the route `/`, the root handler
returns HTTP status 200 and a response body equal exactly to the JSON
object with the single field message = "AI Project Backend is running". -/
theorem c1_root_get_ok (req : Request)
    (hm : req.method = Method.GET) (hp : req.path = "/") :
    (processRequest corsConfig req).status = 200 ∧
    (processRequest corsConfig req).body =
      some ⟨[("message", "AI Project Backend is running")]⟩ := by
  have hps := processRequest_preserves corsConfig req (isPreflight_of_get req hm)
  have hd : dispatch req = { status := 200, body := some root, headers := [] } := by
    simp [dispatch, routeHandler, hm, hp]
  exact ⟨by rw [hps.1, hd], by rw [hps.2, hd]; rfl⟩

/-- Witness for C1 at the concrete request GET / with no headers. -/
theorem c1_root_get_ok_witness :
    (processRequest corsConfig
      { method := Method.GET, path := "/", origin := none,
        headers := [], query := "", body := "" }).status = 200 ∧
    (processRequest corsConfig
      { method := Method.GET, path := "/", origin := none,
        headers := [], query := "", body := "" }).body =
      some ⟨[("message", "AI Project Backend is running")]⟩ :=
  c1_root_get_ok
    { method := Method.GET, path := "/", origin := none,
      headers := [], query := "", body := "" } rfl rfl

/-- C2: For every valid GET request to the route `/health`, the health
handler returns HTTP status 200 and a response body equal exactly to the
JSON object with the single field status = "healthy". -/
theorem c2_health_get_ok (req : Request)
    (hm : req.method = Method.GET) (hp : req.path = "/health") :
    (processRequest corsConfig req).status = 200 ∧
    (processRequest corsConfig req).body = some ⟨[("status", "healthy")]⟩ := by
  have hps := processRequest_preserves corsConfig req (isPreflight_of_get req hm)
  have hd : dispatch req = { status := 200, body := some health, headers := [] } := by
    simp [dispatch, routeHandler, hm, hp]
  exact ⟨by rw [hps.1, hd], by rw [hps.2, hd]; rfl⟩

/-- Witness for C2 at the concrete request GET /health with no headers. -/
theorem c2_health_get_ok_witness :
    (processRequest corsConfig
      { method := Method.GET, path := "/health", origin := none,
        headers := [], query := "", body := "" }).status = 200 ∧
    (processRequest corsConfig
      { method := Method.GET, path := "/health", origin := none,
        headers := [], query := "", body := "" }).body =
      some ⟨[("status", "healthy")]⟩ :=
  c2_health_get_ok
    { method := Method.GET, path := "/health", origin := none,
      headers := [], query := "", body := "" } rfl rfl

/-- C3: For any two requests to the same route — whatever their headers,
origin, query or body — the pipeline produces identical response
payloads, and issuing a request N times yields N identical responses. -/
theorem c3_payload_constant (r1 r2 : Request)
    (hm : r1.method = r2.method) (hp : r1.path = r2.path) :
    (processRequest corsConfig r1).body = (processRequest corsConfig r2).body ∧
    ∀ (n : Nat) (resp : Response),
      resp ∈ (List.replicate n r1).map (processRequest corsConfig) →
      resp = processRequest corsConfig r1 := by
  refine ⟨?_, ?_⟩
  · rw [processRequest_body, processRequest_body]
    exact dispatch_body_congr r1 r2 hm hp
  · intro n resp hmem
    obtain ⟨a, ha, rfl⟩ := List.mem_map.mp hmem
    exact congrArg (processRequest corsConfig) (List.eq_of_mem_replicate ha)

/-- Witness for C3 at two concrete requests to `/` that differ in their
headers, origin, query and body. -/
theorem c3_payload_constant_witness :
    (processRequest corsConfig
      { method := Method.GET, path := "/", origin := none,
        headers := [], query := "", body := "" }).body =
      (processRequest corsConfig
        { method := Method.GET, path := "/", origin := some "http://localhost:3000",
          headers := [("X-Extra", "1")], query := "a=b", body := "ignored" }).body ∧
    ∀ (n : Nat) (resp : Response),
      resp ∈ (List.replicate n
        { method := Method.GET, path := "/", origin := none,
          headers := [], query := "", body := "" }).map (processRequest corsConfig) →
      resp = processRequest corsConfig
        { method := Method.GET, path := "/", origin := none,
          headers := [], query := "", body := "" } :=
  c3_payload_constant
    { method := Method.GET, path := "/", origin := none,
      headers := [], query := "", body := "" }
    { method := Method.GET, path := "/", origin := some "http://localhost:3000",
      headers := [("X-Extra", "1")], query := "a=b", body := "ignored" } rfl rfl

/-- C4: The allow-list is exactly the two origins http://localhost:3000
and http://localhost:5173, and a response carries the cross-origin grant
(an allow-origin header naming the request's origin) exactly when that
origin is in the allow-list. -/
theorem c4_allow_list_exact :
    corsConfig.allow_origins = ["http://localhost:3000", "http://localhost:5173"] ∧
    ∀ (req : Request) (o : String), req.origin = some o →
      (("Access-Control-Allow-Origin", o) ∈ (processRequest corsConfig req).headers ↔
        o ∈ corsConfig.allow_origins) := by
  refine ⟨rfl, ?_⟩
  intro req o hor
  by_cases hmem : o ∈ corsConfig.allow_origins
  · have hmem' : o = "http://localhost:3000" ∨ o = "http://localhost:5173" := by
      simpa [corsConfig] using hmem
    by_cases hpre : isPreflight req
    · simp [processRequest, hor, hmem, hpre, preflightResponse, corsGrantHeaders,
        corsConfig, hmem']
    · simp [processRequest, hor, hmem, hpre, corsGrantHeaders, corsConfig, hmem']
  · simp [processRequest, hor, hmem, dispatch_headers]

/-- Witness for C4: the allow-list content, and the grant equivalence at a
concrete request from the first allowed origin. -/
theorem c4_allow_list_exact_witness :
    corsConfig.allow_origins = ["http://localhost:3000", "http://localhost:5173"] ∧
    (("Access-Control-Allow-Origin", "http://localhost:3000") ∈
        (processRequest corsConfig
          { method := Method.GET, path := "/", origin := some "http://localhost:3000",
            headers := [], query := "", body := "" }).headers ↔
      "http://localhost:3000" ∈ corsConfig.allow_origins) :=
  ⟨c4_allow_list_exact.1,
    c4_allow_list_exact.2
      { method := Method.GET, path := "/", origin := some "http://localhost:3000",
        headers := [], query := "", body := "" } "http://localhost:3000" rfl⟩

/-- C5: A request whose Origin is not in the allow-list — preflight
OPTIONS requests included — is not rejected: the pipeline returns the
route's normal response entirely unchanged, so the non-allowed origin
merely loses the cross-origin headers. -/
theorem c5_non_allowed_origin_processed (req : Request) (o : String)
    (hor : req.origin = some o) (hno : o ∉ corsConfig.allow_origins) :
    processRequest corsConfig req = dispatch req := by
  simp [processRequest, hor, hno]

/-- Witness for C5 at a concrete preflight OPTIONS request from the
non-allowed origin http://evil.example. -/
theorem c5_non_allowed_origin_processed_witness :
    processRequest corsConfig
      { method := Method.OPTIONS, path := "/", origin := some "http://evil.example",
        headers := [("Access-Control-Request-Method", "GET")], query := "", body := "" } =
    dispatch
      { method := Method.OPTIONS, path := "/", origin := some "http://evil.example",
        headers := [("Access-Control-Request-Method", "GET")], query := "", body := "" } :=
  c5_non_allowed_origin_processed
    { method := Method.OPTIONS, path := "/", origin := some "http://evil.example",
      headers := [("Access-Control-Request-Method", "GET")], query := "", body := "" }
    "http://evil.example" rfl (by decide)

/-- C6: Both handlers are total: every request delivered to `/` or
`/health` matches a registered handler, never produces an error status,
and the response body is exactly that handler's fixed output. -/
theorem c6_handlers_total (req : Request) (hm : req.method = Method.GET)
    (hp : req.path = "/" ∨ req.path = "/health") :
    (routeHandler req.method req.path).isSome = true ∧
    (processRequest corsConfig req).status = 200 ∧
    (processRequest corsConfig req).body = routeHandler req.method req.path := by
  have hps := processRequest_preserves corsConfig req (isPreflight_of_get req hm)
  cases hp with
  | inl h =>
    have hd : dispatch req = { status := 200, body := some root, headers := [] } := by
      simp [dispatch, routeHandler, hm, h]
    refine ⟨by simp [routeHandler, hm, h], by rw [hps.1, hd], ?_⟩
    rw [hps.2, hd]
    simp [routeHandler, hm, h]
  | inr h =>
    have hd : dispatch req = { status := 200, body := some health, headers := [] } := by
      simp [dispatch, routeHandler, hm, h]
    refine ⟨by simp [routeHandler, hm, h], by rw [hps.1, hd], ?_⟩
    rw [hps.2, hd]
    simp [routeHandler, hm, h]

/-- Witness for C6 at a concrete GET /health request carrying ignored
input. -/
theorem c6_handlers_total_witness :
    (routeHandler
      (Request.method
        { method := Method.GET, path := "/health", origin := none,
          headers := [("Accept", "text/html")], query := "q=1", body := "stuff" })
      (Request.path
        { method := Method.GET, path := "/health", origin := none,
          headers := [("Accept", "text/html")], query := "q=1", body := "stuff" })).isSome = true ∧
    (processRequest corsConfig
      { method := Method.GET, path := "/health", origin := none,
        headers := [("Accept", "text/html")], query := "q=1", body := "stuff" }).status = 200 ∧
    (processRequest corsConfig
      { method := Method.GET, path := "/health", origin := none,
        headers := [("Accept", "text/html")], query := "q=1", body := "stuff" }).body =
      routeHandler
        (Request.method
          { method := Method.GET, path := "/health", origin := none,
            headers := [("Accept", "text/html")], query := "q=1", body := "stuff" })
        (Request.path
          { method := Method.GET, path := "/health", origin := none,
            headers := [("Accept", "text/html")], query := "q=1", body := "stuff" }) :=
  c6_handlers_total
    { method := Method.GET, path := "/health", origin := none,
      headers := [("Accept", "text/html")], query := "q=1", body := "stuff" }
    rfl (Or.inr rfl)

/-- C7: The cross-origin configuration allows credentials, all methods
(wildcard) and all request headers (wildcard), and every granted
cross-origin response carries the permit-credentials header. -/
theorem c7_config_flags :
    corsConfig.allow_credentials = true ∧
    corsConfig.allow_methods = ["*"] ∧
    corsConfig.allow_headers = ["*"] ∧
    ∀ (req : Request) (o : String), req.origin = some o →
      o ∈ corsConfig.allow_origins →
      ("Access-Control-Allow-Credentials", "true") ∈
        (processRequest corsConfig req).headers := by
  refine ⟨rfl, rfl, rfl, ?_⟩
  intro req o hor hmem
  have hmem' : o = "http://localhost:3000" ∨ o = "http://localhost:5173" := by
    simpa [corsConfig] using hmem
  by_cases hpre : isPreflight req
  · simp [processRequest, hor, hmem, hpre, preflightResponse, corsGrantHeaders,
      corsConfig, hmem']
  · simp [processRequest, hor, hmem, hpre, corsGrantHeaders, corsConfig, hmem']

/-- Witness for C7: the configuration flags, and the permit-credentials
header on a concrete granted response. -/
theorem c7_config_flags_witness :
    corsConfig.allow_credentials = true ∧
    corsConfig.allow_methods = ["*"] ∧
    corsConfig.allow_headers = ["*"] ∧
    ("Access-Control-Allow-Credentials", "true") ∈
      (processRequest corsConfig
        { method := Method.GET, path := "/", origin := some "http://localhost:5173",
          headers := [], query := "", body := "" }).headers :=
  ⟨c7_config_flags.1, c7_config_flags.2.1, c7_config_flags.2.2.1,
    c7_config_flags.2.2.2
      { method := Method.GET, path := "/", origin := some "http://localhost:5173",
        headers := [], query := "", body := "" }
      "http://localhost:5173" rfl (by decide)⟩

/-- C8: The cross-origin filter is a stateless per-request function
applied to every request: the grant portion of the response depends only
on the request's Origin header, never on the route, method, or any other
part of the request — so it covers both registered routes and any future
route alike. -/
theorem c8_cors_every_route (r1 r2 : Request) (h : r1.origin = r2.origin) :
    corsGrant (processRequest corsConfig r1) = corsGrant (processRequest corsConfig r2) := by
  rw [corsGrant_eval, corsGrant_eval, h]

/-- Witness for C8 at two concrete same-origin requests targeting a
registered route and an unregistered one. -/
theorem c8_cors_every_route_witness :
    corsGrant (processRequest corsConfig
      { method := Method.GET, path := "/", origin := some "http://localhost:5173",
        headers := [], query := "", body := "" }) =
    corsGrant (processRequest corsConfig
      { method := Method.POST, path := "/future-route", origin := some "http://localhost:5173",
        headers := [("X-Y", "z")], query := "k=v", body := "payload" }) :=
  c8_cors_every_route
    { method := Method.GET, path := "/", origin := some "http://localhost:5173",
      headers := [], query := "", body := "" }
    { method := Method.POST, path := "/future-route", origin := some "http://localhost:5173",
      headers := [("X-Y", "z")], query := "k=v", body := "payload" } rfl

/-- C9: The application registers exactly two routes, GET / and
GET /health, and the routing table maps a (method, path) pair to a
handler exactly when it is one of these two. -/
theorem c9_routes_exact :
    registeredRoutes = [(Method.GET, "/"), (Method.GET, "/health")] ∧
    ∀ (m : Method) (p : String),
      (routeHandler m p).isSome = true ↔ (m = Method.GET ∧ (p = "/" ∨ p = "/health")) := by
  refine ⟨rfl, ?_⟩
  intro m p
  unfold routeHandler
  split_ifs with h1 h2
  · simp [h1.1, h1.2]
  · simp [h2.1, h2.2]
  · simp
    intro hg
    exact ⟨fun h => h1 ⟨hg, h⟩, fun h => h2 ⟨hg, h⟩⟩

/-- C10: Every granted cross-origin response echoes the specific
requesting origin, which is one of the two allowed origins; the wildcard
value is never sent as the allowed origin. -/
theorem c10_echo_origin (req : Request) (v : String)
    (h : ("Access-Control-Allow-Origin", v) ∈ (processRequest corsConfig req).headers) :
    req.origin = some v ∧ v ∈ corsConfig.allow_origins ∧ v ≠ "*" := by
  cases hor : req.origin with
  | none =>
    simp [processRequest, hor, dispatch_headers] at h
  | some o =>
    by_cases hmem : o ∈ corsConfig.allow_origins
    · have hmem' : o = "http://localhost:3000" ∨ o = "http://localhost:5173" := by
        simpa [corsConfig] using hmem
      have hv : v = o := by
        by_cases hpre : isPreflight req
        · simp [processRequest, hor, hmem, hpre, preflightResponse,
            corsGrantHeaders, corsConfig, hmem'] at h
          exact h
        · simp [processRequest, hor, hmem, hpre, corsGrantHeaders,
            corsConfig, dispatch_headers, hmem'] at h
          exact h
      subst hv
      refine ⟨rfl, hmem, ?_⟩
      rcases hmem' with h' | h' <;> rw [h'] <;> decide
    · simp [processRequest, hor, hmem, dispatch_headers] at h

/-- Witness for C10 at a concrete granted response for the origin
http://localhost:3000. -/
theorem c10_echo_origin_witness :
    Request.origin
      { method := Method.GET, path := "/health", origin := some "http://localhost:3000",
        headers := [], query := "", body := "" } = some "http://localhost:3000" ∧
    "http://localhost:3000" ∈ corsConfig.allow_origins ∧
    "http://localhost:3000" ≠ "*" :=
  c10_echo_origin
    { method := Method.GET, path := "/health", origin := some "http://localhost:3000",
      headers := [], query := "", body := "" }
    "http://localhost:3000" (by decide)

end Backend
